import Mathlib

/-!
# Verification of the frame distribution server

Shallow embedding of the `StreamingServer` component duplicated in
`V1.X.X/Ableton/MaxShowmotion.py` and `V1.X.X/Ableton/MaxShowDepth.py`,
together with proofs about its frame-update pipeline, TCP accept/send loop,
start/stop lifecycle and the MatrixPacket wire format.

Machine integers are modelled as `Nat` with explicit bounds where the Python
code can overflow (`struct.pack('<i', n)` refuses `n ≥ 2^31`); Python's
real-valued division in the downscale computation is modelled exactly with
`ℚ` (the code computes `min(max_width/width, max_height/height)` with `/` on
numbers that are exact in this range); fallible calls return `Option`.
-/

/-- A raster frame: width, height and pixel bytes, row-major with three
interleaved 8-bit channels (BGR at capture).  `data` holds one `Nat` per
byte. -/
structure Frame where
  width : Nat
  height : Nat
  data : List Nat
deriving DecidableEq

/-- The four bytes of `struct.pack('<i', n)` for `0 ≤ n < 2^31`:
little-endian order, least significant byte first. -/
def int32 (n : Nat) : List Nat :=
  [n % 256, n / 256 % 256, n / 256 ^ 2 % 256, n / 256 ^ 3 % 256]

/-- Models `struct.pack('<i', n)` on a nonnegative value: it raises
`struct.error` when `n` does not fit a signed 32-bit integer. -/
def pack_i (n : Nat) : Option (List Nat) :=
  if n < 2 ^ 31 then some (int32 n) else none

/-- Models `cv2.cvtColor(frame, cv2.COLOR_BGR2RGB)` on the byte stream:
the first and third byte of every 3-byte pixel are swapped. -/
def bgr2rgb : List Nat → List Nat
  | b :: g :: r :: rest => r :: g :: b :: bgr2rgb rest
  | l => l

/-- Models `cv2.resize(f, (nw, nh))`: OpenCV raises when a requested
dimension is zero; otherwise it produces an `nw × nh` frame.  Pixel content
is modelled by nearest-neighbour sampling; every claim in this development
depends only on the byte count `nw * nh * 3`, never on the interpolated
values. -/
def cvResize (f : Frame) (nw nh : Nat) : Option Frame :=
  if nw = 0 ∨ nh = 0 then none
  else some
    { width := nw, height := nh,
      data := (List.range (nw * nh * 3)).map fun i =>
        let c := i % 3
        let x := i / 3 % nw
        let y := i / 3 / nw
        f.data.getD ((y * f.height / nh * f.width + x * f.width / nw) * 3 + c) 0 }

/-- Models `cv2.imencode('.jpg', frame, [IMWRITE_JPEG_QUALITY, 85])`
followed by `.tobytes()`, abstractly, as an injective byte encoding of the
frame; no claim depends on actual JPEG output bytes. -/
def jpegEncode (f : Frame) : List Nat :=
  f.width :: f.height :: f.data

/-- The Python object held in `self.server`: an `http.server.HTTPServer`.
`socketOpen` is the state of its listening socket, `serving` is whether
`serve_forever` is still running (`shutdown()` clears `serving` but leaves
the listening socket open; only `server_close()`, which the code never
calls, would close it), and `frame_bytes` is the attribute the producer
stores on the server object. -/
structure HTTPServerObj where
  socketOpen : Bool
  serving : Bool
  frame_bytes : Option (List Nat)
deriving DecidableEq

/-- A plain socket handle (TCP listening socket or accepted client). -/
structure SocketObj where
  isOpen : Bool
deriving DecidableEq

/-- A `pyvirtualcam.Camera` handle. -/
structure CamObj where
  isOpen : Bool
deriving DecidableEq

/-- The instance fields set by `StreamingServer.__init__` (identical field
lists in both copies of the class). -/
structure ServerState where
  port : Nat
  tcp_port : Nat
  server : Option HTTPServerObj
  tcp_socket : Option SocketObj
  tcp_client : Option SocketObj
  max_width : Nat
  max_height : Nat
  frame_count : Nat
  latest_frame_data : Option (List Nat)
  use_virtual_cam : Bool
  virtual_cam : Option CamObj
  local_file_path : String
deriving DecidableEq

/-- Fault injection for one `update_frame` call: which of the external
calls raise an exception this time.  `encode_raises` stands for
`cv.imencode`/`.tobytes` failing, `imwrite_raises` for `cv.imwrite`,
`cam_send_raises` for `virtual_cam.send`, and `packet_raises` for a failure
inside the TCP-packet `try` block (`cvtColor`/`tobytes`). -/
structure Faults where
  encode_raises : Bool
  imwrite_raises : Bool
  cam_send_raises : Bool
  packet_raises : Bool
deriving DecidableEq

/-- A fault-free call: every external call succeeds. -/
def noFaults : Faults :=
  { encode_raises := false, imwrite_raises := false,
    cam_send_raises := false, packet_raises := false }

/-- Result of one `update_frame` call: the new state, whether an exception
propagated to the caller, and the observable side effects of the middle
steps (the file write being reached, the first-failure diagnostic being
printed, the virtual-camera send being reached). -/
structure UpdateOutcome where
  state : ServerState
  raised : Bool
  file_write_attempted : Bool
  file_failure_reported : Bool
  cam_send_attempted : Bool
deriving DecidableEq

namespace MaxShowmotion

/-- `StreamingServer.__init__` of `MaxShowmotion.py` (default file path
`~/max_video_frame.jpg`). -/
def init (port tcp_port max_width max_height : Nat)
    (local_file_path : Option String) (use_virtual_cam : Bool) : ServerState :=
  { port := port, tcp_port := tcp_port, server := none, tcp_socket := none,
    tcp_client := none, max_width := max_width, max_height := max_height,
    frame_count := 0, latest_frame_data := none,
    use_virtual_cam := use_virtual_cam, virtual_cam := none,
    local_file_path := local_file_path.getD "~/max_video_frame.jpg" }

/-- Line 156 of `MaxShowmotion.py`:
`scale = min(self.max_width / width, self.max_height / height)`.
MODELLING ASSUMPTION: Python evaluates this in IEEE-754 doubles; here the
divisions are exact rationals.  At isolated inputs the double result of the
downstream `int(width * scale)` can differ by one from the exact value
(e.g. in doubles `int(49 * (1/49)) = 0` while exactly it is 1), so
statements about the computed dimensions are statements about this exact
model. -/
def scaleFor (mw mh w h : Nat) : ℚ :=
  min ((mw : ℚ) / w) ((mh : ℚ) / h)

/-- Line 157: `new_width = int(width * scale)` (truncation of a
nonnegative value, i.e. the floor), over the exact-rational model of
`scale` — Python's double rounding can shift the result by one at isolated
inputs (see `scaleFor`). -/
def newWidth (mw mh w h : Nat) : Nat :=
  (⌊(w : ℚ) * scaleFor mw mh w h⌋).toNat

/-- Line 158: `new_height = int(height * scale)`, over the exact-rational
model of `scale` — Python's double rounding can shift the result by one at
isolated inputs, including down to zero (see `scaleFor`). -/
def newHeight (mw mh w h : Nat) : Nat :=
  (⌊(h : ℚ) * scaleFor mw mh w h⌋).toNat

/-- Lines 152–173 of `MaxShowmotion.py`: the body of the TCP-sink `try`
block.  Converts BGR→RGB, downscales when a dimension exceeds the bound,
and serializes header and pixel data; `none` when one of the calls raises
(`cv2.resize` on a zero target dimension, `struct.pack` on an oversized
dimension), in which case the `except` clause skips the publish. -/
def tcpPacket (mw mh : Nat) (frame : Frame) : Option (List Nat) :=
  let rgb : Frame := { frame with data := bgr2rgb frame.data }
  let resized : Option Frame :=
    if mw < rgb.width ∨ mh < rgb.height then
      cvResize rgb (newWidth mw mh rgb.width rgb.height)
        (newHeight mw mh rgb.width rgb.height)
    else some rgb
  match resized with
  | none => none
  | some g =>
    match pack_i g.width, pack_i g.height with
    | some dw, some dh =>
        some (int32 0 ++ int32 2 ++ dw ++ dh ++ int32 1 ++ int32 3 ++ g.data)
    | _, _ => none

/-- `StreamingServer.update_frame` of `MaxShowmotion.py` (lines 122–184).
Step order as in the source: (1) JPEG encode and store on the HTTP server
object — NOT inside any `try`; (2) file snapshot inside `try/except`, the
failure diagnostic printed only when `self.frame_count == 0`; (3) virtual
camera inside `try/except`, touching no instance field; (4) MatrixPacket
build inside `try/except`, publishing `latest_frame_data` and bumping
`frame_count` only on success. -/
def update_frame (s : ServerState) (frame : Frame) (f : Faults) : UpdateOutcome :=
  if f.encode_raises then
    { state := s, raised := true, file_write_attempted := false,
      file_failure_reported := false, cam_send_attempted := false }
  else
    let frame_data := jpegEncode frame
    let s1 : ServerState :=
      match s.server with
      | some srv => { s with server := some { srv with frame_bytes := some frame_data } }
      | none => s
    let fileReported := f.imwrite_raises && (s1.frame_count == 0)
    let camAttempted := s1.use_virtual_cam && s1.virtual_cam.isSome
    if f.packet_raises then
      { state := s1, raised := false, file_write_attempted := true,
        file_failure_reported := fileReported, cam_send_attempted := camAttempted }
    else
      match tcpPacket s1.max_width s1.max_height frame with
      | some packet =>
          { state :=
              { s1 with
                latest_frame_data := some packet
                frame_count := s1.frame_count + 1 },
            raised := false, file_write_attempted := true,
            file_failure_reported := fileReported, cam_send_attempted := camAttempted }
      | none =>
          { state := s1, raised := false, file_write_attempted := true,
            file_failure_reported := fileReported, cam_send_attempted := camAttempted }

end MaxShowmotion


namespace MaxShowmotion

/-- Position of control in `_tcp_accept_loop` (lines 100–120 of
`MaxShowmotion.py`): blocked in `accept()` (outer loop) or inside the inner
send loop of a connected client. -/
inductive TcpPhase where
  | listening
  | sending
deriving DecidableEq

/-- State of the TCP sink loop: the control position and the
`self.tcp_client` reference (a client handle, by id).  The source never
assigns `None` back to `self.tcp_client` inside the loop. -/
structure TcpLoopState where
  phase : TcpPhase
  tcp_client : Option Nat
deriving DecidableEq

/-- One scheduling event of `_tcp_accept_loop`: a client connecting while
the loop is in `accept()`, the 1-second accept timeout elapsing, or one
iteration of the inner send loop (with the outcome of `sendall`). -/
inductive TcpEvent where
  | accept (client : Nat)
  | timeout
  | tick (send_ok : Bool)
deriving DecidableEq

/-- One step of `_tcp_accept_loop` (lines 100–120).  `latest` is the
current `self.latest_frame_data`.  Returns the next state and the list of
`(client, bytes)` deliveries performed by the step.  On `accept`, the
client is stored and the send loop entered; on a tick, the loop sends the
CURRENT `latest_frame_data` whenever it is truthy (non-`None`, non-empty) —
there is no check whether it changed since the last send; on `sendall`
failure the inner loop `break`s back to `accept()` WITHOUT clearing
`self.tcp_client`. -/
def tcp_loop_step (st : TcpLoopState) (latest : Option (List Nat)) (ev : TcpEvent) :
    TcpLoopState × List (Nat × List Nat) :=
  match st.phase, ev with
  | TcpPhase.listening, TcpEvent.accept c =>
      ({ phase := TcpPhase.sending, tcp_client := some c }, [])
  | TcpPhase.listening, _ => (st, [])
  | TcpPhase.sending, TcpEvent.tick ok =>
      match st.tcp_client, latest with
      | some c, some d =>
          if d = [] then (st, [])
          else if ok then (st, [(c, d)])
          else ({ st with phase := TcpPhase.listening }, [])
      | _, _ => (st, [])
  | TcpPhase.sending, _ => (st, [])

end MaxShowmotion


namespace MaxShowmotion

/-- Environment outcomes for one `start()` call: whether binding the HTTP
port raises, whether creating the virtual camera raises (or pyvirtualcam
is missing), and whether binding the TCP port raises. -/
structure StartEnv where
  http_bind_fails : Bool
  cam_create_fails : Bool
  tcp_bind_fails : Bool
deriving DecidableEq

/-- `StreamingServer.start` of `MaxShowmotion.py` (lines 63–98).  The
`HTTPServer` construction on line 64 is NOT inside any `try`, so an HTTP
bind failure propagates to the caller (`none`) before any other sink is
set up.  Virtual-camera creation is in `try/except` and on failure merely
clears `use_virtual_cam`; TCP socket creation is in `try/except` and on
failure sets `tcp_socket = None` after printing a diagnostic. -/
def start (s : ServerState) (e : StartEnv) : Option ServerState :=
  if e.http_bind_fails then none
  else
    let s1 := { s with
      server := some { socketOpen := true, serving := true, frame_bytes := none } }
    let s2 :=
      if s1.use_virtual_cam then
        if e.cam_create_fails then { s1 with use_virtual_cam := false }
        else { s1 with virtual_cam := some { isOpen := true } }
      else s1
    let s3 :=
      if e.tcp_bind_fails then { s2 with tcp_socket := none }
      else { s2 with tcp_socket := some { isOpen := true } }
    some s3

/-- Injected failures of the three `close()` calls inside `stop()`. -/
structure StopFaults where
  client_close_raises : Bool
  socket_close_raises : Bool
  cam_close_raises : Bool
deriving DecidableEq

/-- `StreamingServer.stop` of `MaxShowmotion.py` (lines 186–203).
`self.server.shutdown()` stops the `serve_forever` loop but does NOT close
the HTTP listening socket (`server_close()` is never called); each of the
three `close()` calls is wrapped in `try/except: pass`, so a raising close
is swallowed (modelled conservatively as leaving that handle in its prior
state).  No reference is cleared, and the function never propagates an
exception (the result is always `some`). -/
def stop (s : ServerState) (f : StopFaults) : Option ServerState :=
  some { s with
    server := s.server.map fun srv => { srv with serving := false }
    tcp_client := s.tcp_client.map fun c =>
      if f.client_close_raises then c else { isOpen := false }
    tcp_socket := s.tcp_socket.map fun c =>
      if f.socket_close_raises then c else { isOpen := false }
    virtual_cam := s.virtual_cam.map fun c =>
      if f.cam_close_raises then c else { isOpen := false } }

end MaxShowmotion


/-- Response of `StreamingHandler.do_GET` to a single request: the start of
the unbounded multipart/MJPEG stream, a single JPEG with
`Cache-Control: no-cache`, or a 404. -/
inductive HttpResp where
  | streamResponse
  | okJpeg (body : List Nat)
  | notFound
deriving DecidableEq

namespace MaxShowmotion

/-- `StreamingHandler.do_GET` of `MaxShowmotion.py` (lines 8–37):
`/stream` answers 200 with the multipart stream; `/frame.jpg` answers the
current `frame_bytes` when the attribute exists, else 404; any other path
answers 404. -/
def do_GET (path : String) (frame_bytes : Option (List Nat)) : HttpResp :=
  if path = "/stream" then HttpResp.streamResponse
  else if path = "/frame.jpg" then
    match frame_bytes with
    | some b => HttpResp.okJpeg b
    | none => HttpResp.notFound
  else HttpResp.notFound

end MaxShowmotion

namespace MaxShowDepth

/-- `StreamingServer.__init__` of `MaxShowDepth.py` (default file path
`~/max_depth_frame.jpg`). -/
def init (port tcp_port max_width max_height : Nat)
    (local_file_path : Option String) (use_virtual_cam : Bool) : ServerState :=
  { port := port, tcp_port := tcp_port, server := none, tcp_socket := none,
    tcp_client := none, max_width := max_width, max_height := max_height,
    frame_count := 0, latest_frame_data := none,
    use_virtual_cam := use_virtual_cam, virtual_cam := none,
    local_file_path := local_file_path.getD "~/max_depth_frame.jpg" }

/-- Line 158 of `MaxShowDepth.py`:
`scale = min(self.max_width / width, self.max_height / height)`, under the
same exact-rational model of Python's double division as the motion
variant (see `MaxShowmotion.scaleFor` for the caveat). -/
def scaleFor (mw mh w h : Nat) : ℚ :=
  min ((mw : ℚ) / w) ((mh : ℚ) / h)

/-- Line 159: `new_width = int(width * scale)`, over the exact-rational
model of `scale` (same caveat as the motion variant). -/
def newWidth (mw mh w h : Nat) : Nat :=
  (⌊(w : ℚ) * scaleFor mw mh w h⌋).toNat

/-- Line 160: `new_height = int(height * scale)`, over the exact-rational
model of `scale` (same caveat as the motion variant). -/
def newHeight (mw mh w h : Nat) : Nat :=
  (⌊(h : ℚ) * scaleFor mw mh w h⌋).toNat

/-- Lines 154–175 of `MaxShowDepth.py`: the body of the TCP-sink `try`
block, character-for-character the same logic as in `MaxShowmotion.py`. -/
def tcpPacket (mw mh : Nat) (frame : Frame) : Option (List Nat) :=
  let rgb : Frame := { frame with data := bgr2rgb frame.data }
  let resized : Option Frame :=
    if mw < rgb.width ∨ mh < rgb.height then
      cvResize rgb (newWidth mw mh rgb.width rgb.height)
        (newHeight mw mh rgb.width rgb.height)
    else some rgb
  match resized with
  | none => none
  | some g =>
    match pack_i g.width, pack_i g.height with
    | some dw, some dh =>
        some (int32 0 ++ int32 2 ++ dw ++ dh ++ int32 1 ++ int32 3 ++ g.data)
    | _, _ => none

/-- `StreamingServer.update_frame` of `MaxShowDepth.py` (lines 124–186):
the same four steps in the same order as the motion variant, with the same
guarding (step 1 unguarded, steps 2–4 in `try/except`). -/
def update_frame (s : ServerState) (frame : Frame) (f : Faults) : UpdateOutcome :=
  if f.encode_raises then
    { state := s, raised := true, file_write_attempted := false,
      file_failure_reported := false, cam_send_attempted := false }
  else
    let frame_data := jpegEncode frame
    let s1 : ServerState :=
      match s.server with
      | some srv => { s with server := some { srv with frame_bytes := some frame_data } }
      | none => s
    let fileReported := f.imwrite_raises && (s1.frame_count == 0)
    let camAttempted := s1.use_virtual_cam && s1.virtual_cam.isSome
    if f.packet_raises then
      { state := s1, raised := false, file_write_attempted := true,
        file_failure_reported := fileReported, cam_send_attempted := camAttempted }
    else
      match tcpPacket s1.max_width s1.max_height frame with
      | some packet =>
          { state :=
              { s1 with
                latest_frame_data := some packet
                frame_count := s1.frame_count + 1 },
            raised := false, file_write_attempted := true,
            file_failure_reported := fileReported, cam_send_attempted := camAttempted }
      | none =>
          { state := s1, raised := false, file_write_attempted := true,
            file_failure_reported := fileReported, cam_send_attempted := camAttempted }

/-- `StreamingHandler.do_GET` of `MaxShowDepth.py` (lines 10–39), the same
routing as the motion variant. -/
def do_GET (path : String) (frame_bytes : Option (List Nat)) : HttpResp :=
  if path = "/stream" then HttpResp.streamResponse
  else if path = "/frame.jpg" then
    match frame_bytes with
    | some b => HttpResp.okJpeg b
    | none => HttpResp.notFound
  else HttpResp.notFound

end MaxShowDepth

/-- A concretely started motion server: the constructed state with the
HTTP server object attached, as `start()` leaves it. -/
def startedServer : ServerState :=
  { MaxShowmotion.init 8080 8081 640 480 (some "~/f.jpg") false with
    server := some { socketOpen := true, serving := true, frame_bytes := none } }

/-- C9: the two duplicated `StreamingServer` implementations are
behaviorally equivalent — constructed with the same explicit port,
tcp_port, max bound, file path and camera flag they yield identical
states, their `update_frame` functions produce identical outcomes
(hence identical `frame_bytes` and `latest_frame_data`) on every input,
and their HTTP handlers produce identical responses to every request. -/
theorem c9_duplicate_equivalence :
    (∀ port tcp_port mw mh p cam,
      MaxShowmotion.init port tcp_port mw mh (some p) cam =
        MaxShowDepth.init port tcp_port mw mh (some p) cam) ∧
    (∀ s frame f, MaxShowmotion.update_frame s frame f =
      MaxShowDepth.update_frame s frame f) ∧
    (∀ path fb, MaxShowmotion.do_GET path fb = MaxShowDepth.do_GET path fb) :=
  ⟨fun _ _ _ _ _ _ => rfl, fun _ _ _ => rfl, fun _ _ => rfl⟩

theorem bgr2rgb_length : ∀ l : List Nat, (bgr2rgb l).length = l.length
  | _ :: _ :: _ :: rest => by
      simp only [bgr2rgb, List.length_cons]
      rw [bgr2rgb_length rest]
  | [] => rfl
  | [_] => rfl
  | [_, _] => rfl

namespace MaxShowmotion

/-- Evaluation form of `newHeight`, in pure natural arithmetic. -/
theorem newHeight_eq (mw mh w h : Nat) (hw0 : 0 < w) (hh0 : 0 < h) :
    newHeight mw mh w h = if mw * h ≤ mh * w then h * mw / w else mh := by
  have hwQ : (0 : ℚ) < w := by positivity
  have hhQ : (0 : ℚ) < h := by positivity
  unfold newHeight scaleFor
  rcases le_or_lt ((mw : ℚ) / w) ((mh : ℚ) / h) with hc | hc
  · have hcond : mw * h ≤ mh * w := by
      rw [div_le_div_iff₀ hwQ hhQ] at hc
      exact_mod_cast hc
    rw [min_eq_left hc, if_pos hcond]
    have hx : (h : ℚ) * ((mw : ℚ) / w) = ((h * mw : Nat) : ℚ) / ((w : Nat) : ℚ) := by
      push_cast
      ring
    rw [hx, Rat.floor_natCast_div_natCast, ← Int.natCast_div, Int.toNat_natCast]
  · have hcond : ¬ (mw * h ≤ mh * w) := by
      rw [div_lt_div_iff₀ hhQ hwQ] at hc
      have : mh * w < mw * h := by exact_mod_cast hc
      omega
    rw [min_eq_right hc.le, if_neg hcond]
    have hx : (h : ℚ) * ((mh : ℚ) / h) = ((mh : ℚ) : ℚ) := by field_simp
    rw [hx, Int.floor_natCast, Int.toNat_natCast]

end MaxShowmotion

/-- C1: for a frame within the bound, `update_frame` publishes
`latest_frame_data` as the 24-byte header of six little-endian int32 fields
`[0, 2, w, h, 1, 3]` followed by exactly `w*h*3` RGB pixel bytes, with no
rescaling. -/
theorem c1_packet_within_bound (s : ServerState) (frame : Frame)
    (hw : frame.width ≤ s.max_width) (hh : frame.height ≤ s.max_height)
    (hw31 : frame.width < 2 ^ 31) (hh31 : frame.height < 2 ^ 31)
    (hdata : frame.data.length = frame.width * frame.height * 3) :
    (MaxShowmotion.update_frame s frame noFaults).state.latest_frame_data =
      some (int32 0 ++ int32 2 ++ int32 frame.width ++ int32 frame.height ++
        int32 1 ++ int32 3 ++ bgr2rgb frame.data) ∧
    (int32 0 ++ int32 2 ++ int32 frame.width ++ int32 frame.height ++
        int32 1 ++ int32 3).length = 24 ∧
    (bgr2rgb frame.data).length = frame.width * frame.height * 3 := by
  refine ⟨?_, by simp [int32], by rw [bgr2rgb_length, hdata]⟩
  have hnot : ¬ (s.max_width < frame.width ∨ s.max_height < frame.height) := by
    push_neg
    exact ⟨hw, hh⟩
  have hpkt : MaxShowmotion.tcpPacket s.max_width s.max_height frame =
      some (int32 0 ++ int32 2 ++ int32 frame.width ++ int32 frame.height ++
        int32 1 ++ int32 3 ++ bgr2rgb frame.data) := by
    simp [MaxShowmotion.tcpPacket, hnot, pack_i,
      show frame.width < 2147483648 by omega,
      show frame.height < 2147483648 by omega]
  cases hsrv : s.server <;>
    simp [MaxShowmotion.update_frame, noFaults, hsrv, hpkt]

/-- Witness for C1 at a concrete 2×1 frame under a 640×480 bound. -/
theorem c1_witness :
    ((2 : Nat) ≤ 640 ∧ (1 : Nat) ≤ 480 ∧ (2 : Nat) < 2 ^ 31 ∧ (1 : Nat) < 2 ^ 31 ∧
      ([10, 20, 30, 40, 50, 60] : List Nat).length = 2 * 1 * 3) ∧
    (MaxShowmotion.update_frame
        (MaxShowmotion.init 8080 8081 640 480 (some "~/f.jpg") false)
        ⟨2, 1, [10, 20, 30, 40, 50, 60]⟩ noFaults).state.latest_frame_data =
      some (int32 0 ++ int32 2 ++ int32 2 ++ int32 1 ++ int32 1 ++ int32 3 ++
        bgr2rgb [10, 20, 30, 40, 50, 60]) := by
  refine ⟨⟨by decide, by decide, by decide, by decide, by decide⟩, ?_⟩
  exact (c1_packet_within_bound
    (MaxShowmotion.init 8080 8081 640 480 (some "~/f.jpg") false)
    ⟨2, 1, [10, 20, 30, 40, 50, 60]⟩
    (by decide) (by decide) (by decide) (by decide) (by decide)).1

/-- At an extreme aspect, the computed target height is zero: with the
default 640×480 bound, a 10000×1 frame gets
`new_height = int(1 * 0.064) = 0` (this value is the same under exact
rationals and under Python doubles). -/
theorem newHeight_extreme_aspect : MaxShowmotion.newHeight 640 480 10000 1 = 0 := by
  rw [MaxShowmotion.newHeight_eq 640 480 10000 1 (by decide) (by decide)]
  decide

/-- On the 10000×1 frame the TCP-packet step fails: `cv2.resize` raises on
the zero target height, the `except` clause swallows it, and no packet is
produced. -/
theorem tcpPacket_extreme_aspect :
    MaxShowmotion.tcpPacket 640 480 ⟨10000, 1, List.replicate 30000 0⟩ = none := by
  simp only [MaxShowmotion.tcpPacket]
  rw [if_pos (Or.inl (by decide))]
  rw [cvResize, if_pos (Or.inr newHeight_extreme_aspect)]

/-- When the TCP-packet step fails (the `except` path), a fault-free
`update_frame` leaves `latest_frame_data` unchanged. -/
theorem update_frame_packet_none (s : ServerState) (frame : Frame)
    (hpkt : MaxShowmotion.tcpPacket s.max_width s.max_height frame = none) :
    (MaxShowmotion.update_frame s frame noFaults).state.latest_frame_data =
      s.latest_frame_data := by
  cases hsrv : s.server <;>
    simp [MaxShowmotion.update_frame, noFaults, hsrv, hpkt]

/-- A fault-free `update_frame` call never raises: the only unguarded
statement is the JPEG encode, and `noFaults` makes it succeed. -/
theorem update_frame_noFaults_raised (s : ServerState) (frame : Frame) :
    (MaxShowmotion.update_frame s frame noFaults).raised = false := by
  cases hsrv : s.server <;>
    cases hpk : MaxShowmotion.tcpPacket s.max_width s.max_height frame <;>
    simp [MaxShowmotion.update_frame, noFaults, hsrv, hpk]

/-- C3 counterexample: the JPEG-encode step (step 1) is not inside any
`try` block, so when it raises, the exception propagates to the caller and
none of the other three sink steps of that call runs — here the file write
is never attempted and no MatrixPacket is published, contradicting the
claim that an exception in any one of the four sink steps does not prevent
the other steps of the same call from running. -/
theorem c3_counterexample :
    (MaxShowmotion.update_frame
        (MaxShowmotion.init 8080 8081 640 480 (some "~/f.jpg") false)
        ⟨1, 1, [5, 6, 7]⟩
        { encode_raises := true, imwrite_raises := false,
          cam_send_raises := false, packet_raises := false }).raised = true ∧
    (MaxShowmotion.update_frame
        (MaxShowmotion.init 8080 8081 640 480 (some "~/f.jpg") false)
        ⟨1, 1, [5, 6, 7]⟩
        { encode_raises := true, imwrite_raises := false,
          cam_send_raises := false, packet_raises := false }).file_write_attempted
      = false ∧
    (MaxShowmotion.update_frame
        (MaxShowmotion.init 8080 8081 640 480 (some "~/f.jpg") false)
        ⟨1, 1, [5, 6, 7]⟩
        { encode_raises := true, imwrite_raises := false,
          cam_send_raises := false, packet_raises := false }).state.latest_frame_data
      = none := by
  decide

/-- C3 as amended: steps 2–4 (file write, virtual camera, TCP packet) are
each fault-isolated — a failure in one is swallowed and the others still
run, previously published representations are retained, and a later
fault-free call succeeds; but a step-1 (JPEG encode) exception propagates
and aborts the whole call, leaving the state untouched. -/
theorem c3_fault_isolation (s : ServerState) (frame frame2 : Frame) (f : Faults) :
    (MaxShowmotion.update_frame s frame f).raised = f.encode_raises ∧
    (f.encode_raises = true → (MaxShowmotion.update_frame s frame f).state = s) ∧
    (f.encode_raises = false →
      (MaxShowmotion.update_frame s frame f).file_write_attempted = true ∧
      (MaxShowmotion.update_frame s frame f).cam_send_attempted =
        (s.use_virtual_cam && s.virtual_cam.isSome) ∧
      (∀ srv, s.server = some srv →
        (MaxShowmotion.update_frame s frame f).state.server =
          some { srv with frame_bytes := some (jpegEncode frame) }) ∧
      (f.packet_raises = true →
        (MaxShowmotion.update_frame s frame f).state.latest_frame_data =
            s.latest_frame_data ∧
        (MaxShowmotion.update_frame s frame f).state.frame_count = s.frame_count) ∧
      (f.packet_raises = false →
        (MaxShowmotion.update_frame s frame f).state.latest_frame_data =
          match MaxShowmotion.tcpPacket s.max_width s.max_height frame with
          | some p => some p
          | none => s.latest_frame_data)) ∧
    (MaxShowmotion.update_frame
        (MaxShowmotion.update_frame s frame f).state frame2 noFaults).raised
      = false := by
  obtain ⟨enc, wr, cam, pkt⟩ := f
  cases enc <;> cases pkt <;> cases hsrv : s.server <;>
    cases hpk : MaxShowmotion.tcpPacket s.max_width s.max_height frame <;>
    cases hpk2 : MaxShowmotion.tcpPacket s.max_width s.max_height frame2 <;>
    simp [MaxShowmotion.update_frame, noFaults, hsrv, hpk, hpk2]

/-- Witness for C3 (amended): instantiated with an isolated step-4 fault
and with an isolated step-1 fault at concrete inputs. -/
theorem c3_witness :
    (MaxShowmotion.update_frame
        (MaxShowmotion.init 8080 8081 640 480 (some "~/f.jpg") false)
        ⟨1, 1, [5, 6, 7]⟩
        { encode_raises := false, imwrite_raises := false,
          cam_send_raises := false, packet_raises := true }).file_write_attempted
      = true ∧
    (MaxShowmotion.update_frame
        (MaxShowmotion.init 8080 8081 640 480 (some "~/f.jpg") false)
        ⟨1, 1, [5, 6, 7]⟩
        { encode_raises := false, imwrite_raises := false,
          cam_send_raises := false, packet_raises := true }).state.latest_frame_data
      = (MaxShowmotion.init 8080 8081 640 480 (some "~/f.jpg") false).latest_frame_data ∧
    (MaxShowmotion.update_frame
        (MaxShowmotion.init 8080 8081 640 480 (some "~/f.jpg") false)
        ⟨1, 1, [5, 6, 7]⟩
        { encode_raises := true, imwrite_raises := false,
          cam_send_raises := false, packet_raises := false }).state
      = MaxShowmotion.init 8080 8081 640 480 (some "~/f.jpg") false := by
  refine ⟨?_, ?_, ?_⟩
  · exact ((c3_fault_isolation
      (MaxShowmotion.init 8080 8081 640 480 (some "~/f.jpg") false)
      ⟨1, 1, [5, 6, 7]⟩ ⟨1, 1, [5, 6, 7]⟩
      { encode_raises := false, imwrite_raises := false,
        cam_send_raises := false, packet_raises := true }).2.2.1 rfl).1
  · exact (((c3_fault_isolation
      (MaxShowmotion.init 8080 8081 640 480 (some "~/f.jpg") false)
      ⟨1, 1, [5, 6, 7]⟩ ⟨1, 1, [5, 6, 7]⟩
      { encode_raises := false, imwrite_raises := false,
        cam_send_raises := false, packet_raises := true }).2.2.1 rfl).2.2.2.1 rfl).1
  · exact (c3_fault_isolation
      (MaxShowmotion.init 8080 8081 640 480 (some "~/f.jpg") false)
      ⟨1, 1, [5, 6, 7]⟩ ⟨1, 1, [5, 6, 7]⟩
      { encode_raises := true, imwrite_raises := false,
        cam_send_raises := false, packet_raises := false }).2.1 rfl

/-- C7 counterexample: the first failing file write happens on the second
`update_frame` call (by which time `frame_count = 1`), and no diagnostic at
all is printed — contradicting "reported exactly once, on its first
occurrence, no matter at which update the first failure occurs". -/
theorem c7_counterexample :
    (MaxShowmotion.update_frame
        (MaxShowmotion.init 8080 8081 640 480 (some "~/f.jpg") false)
        ⟨1, 1, [5, 6, 7]⟩ noFaults).state.frame_count = 1 ∧
    (MaxShowmotion.update_frame
        (MaxShowmotion.update_frame
          (MaxShowmotion.init 8080 8081 640 480 (some "~/f.jpg") false)
          ⟨1, 1, [5, 6, 7]⟩ noFaults).state
        ⟨1, 1, [5, 6, 7]⟩
        { encode_raises := false, imwrite_raises := true,
          cam_send_raises := false, packet_raises := false }).raised = false ∧
    (MaxShowmotion.update_frame
        (MaxShowmotion.update_frame
          (MaxShowmotion.init 8080 8081 640 480 (some "~/f.jpg") false)
          ⟨1, 1, [5, 6, 7]⟩ noFaults).state
        ⟨1, 1, [5, 6, 7]⟩
        { encode_raises := false, imwrite_raises := true,
          cam_send_raises := false, packet_raises := false }).file_failure_reported
      = false := by
  decide

/-- C7 as amended: a file-write failure is always swallowed (given the call
reaches that step, i.e. the unguarded JPEG-encode step did not raise), and
its diagnostic is printed exactly when the failure occurs while
`frame_count = 0`, i.e. before the first successful TCP-packet
preparation — not on the first occurrence in general. -/
theorem c7_file_failure_reporting (s : ServerState) (frame : Frame) (f : Faults)
    (henc : f.encode_raises = false) (hwr : f.imwrite_raises = true) :
    (MaxShowmotion.update_frame s frame f).raised = false ∧
    (MaxShowmotion.update_frame s frame f).file_failure_reported =
      (s.frame_count == 0) := by
  obtain ⟨enc, wr, cam, pkt⟩ := f
  simp only [] at henc hwr
  subst henc
  subst hwr
  cases pkt <;> cases hsrv : s.server <;>
    cases hpk : MaxShowmotion.tcpPacket s.max_width s.max_height frame <;>
    simp [MaxShowmotion.update_frame, hsrv, hpk]

/-- Witness for C7 (amended) at a concrete first-call failure, where the
diagnostic is printed. -/
theorem c7_witness :
    (MaxShowmotion.update_frame
        (MaxShowmotion.init 8080 8081 640 480 (some "~/f.jpg") false)
        ⟨1, 1, [5, 6, 7]⟩
        { encode_raises := false, imwrite_raises := true,
          cam_send_raises := false, packet_raises := false }).raised = false ∧
    (MaxShowmotion.update_frame
        (MaxShowmotion.init 8080 8081 640 480 (some "~/f.jpg") false)
        ⟨1, 1, [5, 6, 7]⟩
        { encode_raises := false, imwrite_raises := true,
          cam_send_raises := false, packet_raises := false }).file_failure_reported
      = ((MaxShowmotion.init 8080 8081 640 480 (some "~/f.jpg") false).frame_count == 0) :=
  c7_file_failure_reporting
    (MaxShowmotion.init 8080 8081 640 480 (some "~/f.jpg") false)
    ⟨1, 1, [5, 6, 7]⟩
    { encode_raises := false, imwrite_raises := true,
      cam_send_raises := false, packet_raises := false } rfl rfl

/-- C4 counterexample: with `latest_frame_data` unchanged across two
consecutive ticks, the send loop writes the identical packet bytes on both
ticks, so the client receives the same bytes twice — contradicting both
"nothing is written when no new packet was produced since the last send"
and "the client never receives the same packet bytes more than once". -/
theorem c4_counterexample :
    (MaxShowmotion.tcp_loop_step
        { phase := MaxShowmotion.TcpPhase.sending, tcp_client := some 0 }
        (some [1, 2]) (MaxShowmotion.TcpEvent.tick true)).2 = [(0, [1, 2])] ∧
    (MaxShowmotion.tcp_loop_step
        (MaxShowmotion.tcp_loop_step
          { phase := MaxShowmotion.TcpPhase.sending, tcp_client := some 0 }
          (some [1, 2]) (MaxShowmotion.TcpEvent.tick true)).1
        (some [1, 2]) (MaxShowmotion.TcpEvent.tick true)).2 = [(0, [1, 2])] := by
  decide

/-- C4 as amended: a tick sends nothing only when `latest_frame_data` is
unset (or empty, which a real packet never is); whenever a nonempty packet
is present, the send loop pushes the CURRENT packet on every tick, whether
or not it changed since the last send, so a connected client can receive
the same packet bytes repeatedly. -/
theorem c4_sends_every_tick (st : MaxShowmotion.TcpLoopState) (c : Nat)
    (d : List Nat) (ok : Bool)
    (hphase : st.phase = MaxShowmotion.TcpPhase.sending)
    (hc : st.tcp_client = some c) (hd : d ≠ []) :
    (MaxShowmotion.tcp_loop_step st none (MaxShowmotion.TcpEvent.tick ok)).2 = [] ∧
    (MaxShowmotion.tcp_loop_step st (some [])
      (MaxShowmotion.TcpEvent.tick ok)).2 = [] ∧
    (MaxShowmotion.tcp_loop_step st (some d)
      (MaxShowmotion.TcpEvent.tick true)).2 = [(c, d)] := by
  obtain ⟨ph, cl⟩ := st
  simp only [] at hphase hc
  subst hphase
  subst hc
  simp [MaxShowmotion.tcp_loop_step, hd]

/-- Witness for C4 (amended) at a concrete connected state and packet. -/
theorem c4_witness :
    (({ phase := MaxShowmotion.TcpPhase.sending, tcp_client := some 3 } :
          MaxShowmotion.TcpLoopState).phase = MaxShowmotion.TcpPhase.sending ∧
      ({ phase := MaxShowmotion.TcpPhase.sending, tcp_client := some 3 } :
          MaxShowmotion.TcpLoopState).tcp_client = some 3 ∧
      ([9] : List Nat) ≠ []) ∧
    (MaxShowmotion.tcp_loop_step
      { phase := MaxShowmotion.TcpPhase.sending, tcp_client := some 3 }
      none (MaxShowmotion.TcpEvent.tick false)).2 = [] ∧
    (MaxShowmotion.tcp_loop_step
      { phase := MaxShowmotion.TcpPhase.sending, tcp_client := some 3 }
      (some []) (MaxShowmotion.TcpEvent.tick false)).2 = [] ∧
    (MaxShowmotion.tcp_loop_step
      { phase := MaxShowmotion.TcpPhase.sending, tcp_client := some 3 }
      (some [9]) (MaxShowmotion.TcpEvent.tick true)).2 = [(3, [9])] :=
  ⟨⟨rfl, rfl, by decide⟩,
    c4_sends_every_tick
      { phase := MaxShowmotion.TcpPhase.sending, tcp_client := some 3 }
      3 [9] false rfl rfl (by decide)⟩

/-- C5 counterexample: after a failed send the loop does return to
`Listening`, but `self.tcp_client` still holds the stale client (7 here) —
it is never cleared, contradicting "the sink clears the current-client
reference (tcp_client becomes unset)". -/
theorem c5_counterexample :
    (MaxShowmotion.tcp_loop_step
        { phase := MaxShowmotion.TcpPhase.sending, tcp_client := some 7 }
        (some [1]) (MaxShowmotion.TcpEvent.tick false)).1.phase =
      MaxShowmotion.TcpPhase.listening ∧
    (MaxShowmotion.tcp_loop_step
        { phase := MaxShowmotion.TcpPhase.sending, tcp_client := some 7 }
        (some [1]) (MaxShowmotion.TcpEvent.tick false)).1.tcp_client = some 7 := by
  decide

/-- C5 as amended: a send failure breaks out of the send loop back to the
accept loop (the sink returns to `Listening`, delivering nothing on the
failing tick) but leaves the stale `tcp_client` reference in place; the
reference is replaced only when the next client is accepted, after which
fresh packets go to the new client. -/
theorem c5_reconnect (st : MaxShowmotion.TcpLoopState) (c c2 : Nat)
    (d d2 : List Nat)
    (hphase : st.phase = MaxShowmotion.TcpPhase.sending)
    (hc : st.tcp_client = some c) (hd : d ≠ []) (hd2 : d2 ≠ []) :
    (MaxShowmotion.tcp_loop_step st (some d)
      (MaxShowmotion.TcpEvent.tick false)).2 = [] ∧
    (MaxShowmotion.tcp_loop_step st (some d)
      (MaxShowmotion.TcpEvent.tick false)).1.phase =
        MaxShowmotion.TcpPhase.listening ∧
    (MaxShowmotion.tcp_loop_step st (some d)
      (MaxShowmotion.TcpEvent.tick false)).1.tcp_client = some c ∧
    (MaxShowmotion.tcp_loop_step
      (MaxShowmotion.tcp_loop_step st (some d)
        (MaxShowmotion.TcpEvent.tick false)).1
      (some d) (MaxShowmotion.TcpEvent.accept c2)).1.phase =
        MaxShowmotion.TcpPhase.sending ∧
    (MaxShowmotion.tcp_loop_step
      (MaxShowmotion.tcp_loop_step st (some d)
        (MaxShowmotion.TcpEvent.tick false)).1
      (some d) (MaxShowmotion.TcpEvent.accept c2)).1.tcp_client = some c2 ∧
    (MaxShowmotion.tcp_loop_step
      (MaxShowmotion.tcp_loop_step
        (MaxShowmotion.tcp_loop_step st (some d)
          (MaxShowmotion.TcpEvent.tick false)).1
        (some d) (MaxShowmotion.TcpEvent.accept c2)).1
      (some d2) (MaxShowmotion.TcpEvent.tick true)).2 = [(c2, d2)] := by
  obtain ⟨ph, cl⟩ := st
  simp only [] at hphase hc
  subst hphase
  subst hc
  simp [MaxShowmotion.tcp_loop_step, hd, hd2]

/-- Witness for C5 (amended) at a concrete stale client 7 and new
client 8. -/
theorem c5_witness :
    (({ phase := MaxShowmotion.TcpPhase.sending, tcp_client := some 7 } :
          MaxShowmotion.TcpLoopState).phase = MaxShowmotion.TcpPhase.sending ∧
      ([1] : List Nat) ≠ [] ∧ ([2, 3] : List Nat) ≠ []) ∧
    (MaxShowmotion.tcp_loop_step
      { phase := MaxShowmotion.TcpPhase.sending, tcp_client := some 7 }
      (some [1]) (MaxShowmotion.TcpEvent.tick false)).1.tcp_client = some 7 ∧
    (MaxShowmotion.tcp_loop_step
      (MaxShowmotion.tcp_loop_step
        (MaxShowmotion.tcp_loop_step
          { phase := MaxShowmotion.TcpPhase.sending, tcp_client := some 7 }
          (some [1]) (MaxShowmotion.TcpEvent.tick false)).1
        (some [1]) (MaxShowmotion.TcpEvent.accept 8)).1
      (some [2, 3]) (MaxShowmotion.TcpEvent.tick true)).2 = [(8, [2, 3])] := by
  have happ := c5_reconnect
    { phase := MaxShowmotion.TcpPhase.sending, tcp_client := some 7 }
    7 8 [1] [2, 3] rfl rfl (by decide) (by decide)
  exact ⟨⟨rfl, by decide, by decide⟩, happ.2.2.1, happ.2.2.2.2.2⟩

/-- C6 counterexample: a bind failure on the HTTP port propagates out of
`start()` (the `HTTPServer` constructor on line 64 is unguarded), so the
TCP and virtual-camera sinks are never set up — contradicting "start()
never propagates the bind exception to its caller". -/
theorem c6_counterexample :
    MaxShowmotion.start
      (MaxShowmotion.init 8080 8081 640 480 (some "~/f.jpg") false)
      { http_bind_fails := true, cam_create_fails := false,
        tcp_bind_fails := false } = none := by
  decide

/-- C6 as amended: a TCP bind failure is sink-level and non-fatal (the TCP
sink is disabled with a diagnostic while the HTTP and camera sinks are set
up normally), but an HTTP bind failure propagates out of `start()` and no
other sink is set up. -/
theorem c6_bind_isolation (s : ServerState) (e : MaxShowmotion.StartEnv) :
    (e.http_bind_fails = true → MaxShowmotion.start s e = none) ∧
    (e.http_bind_fails = false →
      ∃ s2, MaxShowmotion.start s e = some s2 ∧
        s2.server = some { socketOpen := true, serving := true, frame_bytes := none } ∧
        (e.tcp_bind_fails = true → s2.tcp_socket = none) ∧
        (e.tcp_bind_fails = false → s2.tcp_socket = some { isOpen := true }) ∧
        (s.use_virtual_cam = true → e.cam_create_fails = false →
          s2.virtual_cam = some { isOpen := true }) ∧
        (s.use_virtual_cam = true → e.cam_create_fails = true →
          s2.use_virtual_cam = false ∧ s2.virtual_cam = s.virtual_cam)) := by
  obtain ⟨hb, cb, tb⟩ := e
  cases hb <;> cases cb <;> cases tb <;> cases huse : s.use_virtual_cam <;>
    simp [MaxShowmotion.start, huse]

/-- Witness for C6 (amended): a concrete start with the TCP port in use
and the HTTP port free. -/
theorem c6_witness :
    (({ http_bind_fails := false, cam_create_fails := false,
        tcp_bind_fails := true } : MaxShowmotion.StartEnv).http_bind_fails = false) ∧
    (∃ s2, MaxShowmotion.start
        (MaxShowmotion.init 8080 8081 640 480 (some "~/f.jpg") false)
        { http_bind_fails := false, cam_create_fails := false,
          tcp_bind_fails := true } = some s2 ∧
      s2.server = some { socketOpen := true, serving := true, frame_bytes := none } ∧
      (true = true → s2.tcp_socket = none) ∧
      (true = false → s2.tcp_socket = some { isOpen := true }) ∧
      ((MaxShowmotion.init 8080 8081 640 480 (some "~/f.jpg") false).use_virtual_cam =
          true → false = false → s2.virtual_cam = some { isOpen := true }) ∧
      ((MaxShowmotion.init 8080 8081 640 480 (some "~/f.jpg") false).use_virtual_cam =
          true → false = true → s2.use_virtual_cam = false ∧
          s2.virtual_cam =
            (MaxShowmotion.init 8080 8081 640 480 (some "~/f.jpg") false).virtual_cam)) :=
  ⟨rfl,
    (c6_bind_isolation
      (MaxShowmotion.init 8080 8081 640 480 (some "~/f.jpg") false)
      { http_bind_fails := false, cam_create_fails := false,
        tcp_bind_fails := true }).2 rfl⟩

/-- C8 counterexample: after a successful `start()`, `stop()` leaves the
HTTP listening socket open (`socketOpen = true`) because the code calls
`shutdown()` — which only stops the serve loop — and never
`server_close()`; this contradicts "after stop() returns all transport
resources the server had opened ... are closed". -/
theorem c8_counterexample :
    ((MaxShowmotion.start
        (MaxShowmotion.init 8080 8081 640 480 (some "~/f.jpg") false)
        { http_bind_fails := false, cam_create_fails := false,
          tcp_bind_fails := false }).bind
      (fun s1 => MaxShowmotion.stop s1
        { client_close_raises := false, socket_close_raises := false,
          cam_close_raises := false })).map (fun s2 => s2.server) =
      some (some { socketOpen := true, serving := false, frame_bytes := none }) := by
  decide

/-- C8 as amended: `stop()` never raises — also when called twice in a row
or when `start()` was never called — and (absent close failures, which are
swallowed) closes the TCP client socket, the TCP listening socket and the
virtual-camera handle, and stops the HTTP serve loop; the HTTP listening
socket itself is left open. -/
theorem c8_stop_idempotent_no_raise (s : ServerState) (f f2 : MaxShowmotion.StopFaults) :
    ∃ s2, MaxShowmotion.stop s f = some s2 ∧
      (∃ s3, MaxShowmotion.stop s2 f2 = some s3) ∧
      (f.client_close_raises = false → ∀ c, s.tcp_client = some c →
        s2.tcp_client = some { isOpen := false }) ∧
      (f.socket_close_raises = false → ∀ c, s.tcp_socket = some c →
        s2.tcp_socket = some { isOpen := false }) ∧
      (f.cam_close_raises = false → ∀ c, s.virtual_cam = some c →
        s2.virtual_cam = some { isOpen := false }) ∧
      (∀ srv, s.server = some srv →
        s2.server = some { srv with serving := false }) := by
  refine ⟨_, rfl, ⟨_, rfl⟩, ?_, ?_, ?_, ?_⟩
  · intro hf c hc
    simp [MaxShowmotion.stop, hc, hf]
  · intro hf c hc
    simp [MaxShowmotion.stop, hc, hf]
  · intro hf c hc
    simp [MaxShowmotion.stop, hc, hf]
  · intro srv hsrv
    simp [MaxShowmotion.stop, hsrv]

/-- Witness for C8 (amended): `stop()` on a freshly constructed server on
which `start()` was never called. -/
theorem c8_witness :
    ∃ s2, MaxShowmotion.stop
        (MaxShowmotion.init 8080 8081 640 480 (some "~/f.jpg") false)
        { client_close_raises := false, socket_close_raises := false,
          cam_close_raises := false } = some s2 ∧
      (∃ s3, MaxShowmotion.stop s2
        { client_close_raises := false, socket_close_raises := false,
          cam_close_raises := false } = some s3) ∧
      (({ client_close_raises := false, socket_close_raises := false,
          cam_close_raises := false } : MaxShowmotion.StopFaults).client_close_raises =
          false → ∀ c,
        (MaxShowmotion.init 8080 8081 640 480 (some "~/f.jpg") false).tcp_client =
          some c → s2.tcp_client = some { isOpen := false }) ∧
      (({ client_close_raises := false, socket_close_raises := false,
          cam_close_raises := false } : MaxShowmotion.StopFaults).socket_close_raises =
          false → ∀ c,
        (MaxShowmotion.init 8080 8081 640 480 (some "~/f.jpg") false).tcp_socket =
          some c → s2.tcp_socket = some { isOpen := false }) ∧
      (({ client_close_raises := false, socket_close_raises := false,
          cam_close_raises := false } : MaxShowmotion.StopFaults).cam_close_raises =
          false → ∀ c,
        (MaxShowmotion.init 8080 8081 640 480 (some "~/f.jpg") false).virtual_cam =
          some c → s2.virtual_cam = some { isOpen := false }) ∧
      (∀ srv,
        (MaxShowmotion.init 8080 8081 640 480 (some "~/f.jpg") false).server =
          some srv → s2.server = some { srv with serving := false }) :=
  c8_stop_idempotent_no_raise
    (MaxShowmotion.init 8080 8081 640 480 (some "~/f.jpg") false)
    { client_close_raises := false, socket_close_raises := false,
      cam_close_raises := false }
    { client_close_raises := false, socket_close_raises := false,
      cam_close_raises := false }

/-- C10 counterexample: the claim says that for EVERY frame an
`update_frame` call made after `stop()` still replaces the latest
MatrixPacket — but on a 10000×1 frame the TCP-packet step fails (the
computed target height is zero, `cv2.resize` raises, the `except`
swallows it) and `latest_frame_data` keeps its old value `[1]` instead of
being replaced; the call still does not raise. -/
theorem c10_counterexample :
    ((MaxShowmotion.stop { startedServer with latest_frame_data := some [1] }
        { client_close_raises := false, socket_close_raises := false,
          cam_close_raises := false }).map
      (fun s2 =>
        ((MaxShowmotion.update_frame s2 ⟨10000, 1, List.replicate 30000 0⟩
            noFaults).raised,
          (MaxShowmotion.update_frame s2 ⟨10000, 1, List.replicate 30000 0⟩
            noFaults).state.latest_frame_data))) = some (false, some [1]) := by
  simp only [MaxShowmotion.stop, Option.map, Option.some.injEq, Prod.mk.injEq]
  exact ⟨update_frame_noFaults_raised _ _,
    (update_frame_packet_none _ _ tcpPacket_extreme_aspect).trans rfl⟩

/-- C10 as amended: `stop()` closes transports but clears no field — the
`server`, `tcp_client`, `tcp_socket` and `virtual_cam` references stay
present, and `frame_bytes`, `latest_frame_data` and `frame_count` keep
their values — and for every frame a subsequent `update_frame` call does
not raise and still replaces the published JPEG; it replaces the latest
MatrixPacket exactly when the TCP-packet step succeeds (in particular for
every in-bound frame), and keeps the previous packet when that step fails
(e.g. a zero computed dimension at extreme aspect) — the same behaviour as
before `stop()`. -/
theorem c10_update_after_stop (s : ServerState) (f : MaxShowmotion.StopFaults)
    (frame : Frame)
    (hsrv : s.server.isSome = true) :
    ∃ s2, MaxShowmotion.stop s f = some s2 ∧
      s2.server.isSome = true ∧
      s2.tcp_client.isSome = s.tcp_client.isSome ∧
      s2.tcp_socket.isSome = s.tcp_socket.isSome ∧
      s2.virtual_cam.isSome = s.virtual_cam.isSome ∧
      s2.server.map HTTPServerObj.frame_bytes = s.server.map HTTPServerObj.frame_bytes ∧
      s2.latest_frame_data = s.latest_frame_data ∧
      s2.frame_count = s.frame_count ∧
      (MaxShowmotion.update_frame s2 frame noFaults).raised = false ∧
      (MaxShowmotion.update_frame s2 frame noFaults).state.server.map
        HTTPServerObj.frame_bytes = some (some (jpegEncode frame)) ∧
      ((MaxShowmotion.update_frame s2 frame noFaults).state.latest_frame_data =
        match MaxShowmotion.tcpPacket s.max_width s.max_height frame with
        | some p => some p
        | none => s.latest_frame_data) ∧
      (frame.width ≤ s.max_width → frame.height ≤ s.max_height →
        frame.width < 2 ^ 31 → frame.height < 2 ^ 31 →
        (MaxShowmotion.update_frame s2 frame noFaults).state.latest_frame_data =
          some (int32 0 ++ int32 2 ++ int32 frame.width ++ int32 frame.height ++
            int32 1 ++ int32 3 ++ bgr2rgb frame.data)) := by
  obtain ⟨srv, hsv⟩ := Option.isSome_iff_exists.mp hsrv
  refine ⟨_, rfl, ?_, ?_, ?_, ?_, ?_, rfl, rfl, ?_, ?_, ?_, ?_⟩
  · simp [hsv]
  · simp
  · simp
  · simp
  · simp [hsv]
  · cases hpk : MaxShowmotion.tcpPacket s.max_width s.max_height frame <;>
      simp [MaxShowmotion.update_frame, noFaults, hsv, hpk]
  · cases hpk : MaxShowmotion.tcpPacket s.max_width s.max_height frame <;>
      simp [MaxShowmotion.update_frame, noFaults, hsv, hpk]
  · cases hpk : MaxShowmotion.tcpPacket s.max_width s.max_height frame <;>
      simp [MaxShowmotion.update_frame, noFaults, hsv, hpk]
  · intro hw hh hw31 hh31
    have hnot : ¬ (s.max_width < frame.width ∨ s.max_height < frame.height) := by
      push_neg
      exact ⟨hw, hh⟩
    have hpkt : MaxShowmotion.tcpPacket s.max_width s.max_height frame =
        some (int32 0 ++ int32 2 ++ int32 frame.width ++ int32 frame.height ++
          int32 1 ++ int32 3 ++ bgr2rgb frame.data) := by
      simp [MaxShowmotion.tcpPacket, hnot, pack_i,
        show frame.width < 2147483648 by omega,
        show frame.height < 2147483648 by omega]
    simp [MaxShowmotion.update_frame, noFaults, hsv, hpkt]

/-- Witness for C10 (amended) at a concrete started server and a 1×1
frame. -/
theorem c10_witness :
    startedServer.server.isSome = true ∧
    (∃ s2, MaxShowmotion.stop startedServer
        { client_close_raises := false, socket_close_raises := false,
          cam_close_raises := false } = some s2 ∧
      s2.server.isSome = true ∧
      s2.tcp_client.isSome = startedServer.tcp_client.isSome ∧
      s2.tcp_socket.isSome = startedServer.tcp_socket.isSome ∧
      s2.virtual_cam.isSome = startedServer.virtual_cam.isSome ∧
      s2.server.map HTTPServerObj.frame_bytes =
        startedServer.server.map HTTPServerObj.frame_bytes ∧
      s2.latest_frame_data = startedServer.latest_frame_data ∧
      s2.frame_count = startedServer.frame_count ∧
      (MaxShowmotion.update_frame s2 ⟨1, 1, [5, 6, 7]⟩ noFaults).raised = false ∧
      (MaxShowmotion.update_frame s2 ⟨1, 1, [5, 6, 7]⟩ noFaults).state.server.map
        HTTPServerObj.frame_bytes = some (some (jpegEncode ⟨1, 1, [5, 6, 7]⟩)) ∧
      ((MaxShowmotion.update_frame s2 ⟨1, 1, [5, 6, 7]⟩
          noFaults).state.latest_frame_data =
        match MaxShowmotion.tcpPacket startedServer.max_width
            startedServer.max_height ⟨1, 1, [5, 6, 7]⟩ with
        | some p => some p
        | none => startedServer.latest_frame_data) ∧
      ((1 : Nat) ≤ startedServer.max_width → (1 : Nat) ≤ startedServer.max_height →
        (1 : Nat) < 2 ^ 31 → (1 : Nat) < 2 ^ 31 →
        (MaxShowmotion.update_frame s2 ⟨1, 1, [5, 6, 7]⟩
            noFaults).state.latest_frame_data =
          some (int32 0 ++ int32 2 ++ int32 1 ++ int32 1 ++
            int32 1 ++ int32 3 ++ bgr2rgb [5, 6, 7]))) :=
  ⟨rfl,
    c10_update_after_stop startedServer
      { client_close_raises := false, socket_close_raises := false,
        cam_close_raises := false }
      ⟨1, 1, [5, 6, 7]⟩ rfl⟩
